import Mathlib

/-!
Shallow embedding of the resilient-fetch core of the spider repository
(src/downloader.py): the proxy record (ProxyItem), the bounded LIFO proxy
pool (ProxyManager), the retry decorator, and the Downloader request path.

Python machine state is passed explicitly; Python exceptions are modelled
with Except over an explicit error type; external collaborators (the proxy
provisioning source reached through the proxy module, the configuration
values from the setting module, the HTTP transport of requests.Session and
the random generator) are oracle inputs supplied to each operation.
-/

namespace Spider

/-- The exception kinds that the downloader module raises or catches.
gevent.Timeout derives from BaseException, not Exception, which matters for
the retry decorator's except clause. -/
inductive PyErr : Type
  | attributeError
  | nameError
  | runtimeError
  | timeout
  | httpError (code : Nat)
  | requestException
  | geventTimeout
  | otherError
  deriving DecidableEq

/-- True for the kinds that an `except Exception` clause catches: every kind
above except gevent.Timeout (a BaseException). -/
def PyErr.isException : PyErr → Bool
  | PyErr.geventTimeout => false
  | _ => true

/-- True for the kinds caught by `except requests.exceptions.RequestException`:
Timeout and HTTPError are subclasses of RequestException. -/
def PyErr.isRequestException : PyErr → Bool
  | PyErr.timeout => true
  | PyErr.httpError _ => true
  | PyErr.requestException => true
  | _ => false

/-- A Python dict with string keys and values, in insertion order. -/
abbrev Dict := List (String × String)

/-- Python dict assignment `d[k] = v`: overwrite the value in place when the
key exists, otherwise append the new pair. -/
def dictSet (d : Dict) (k v : String) : Dict :=
  if d.any (fun p => p.1 == k) then d.map (fun p => if p.1 = k then (k, v) else p)
  else d ++ [(k, v)]

/-- Python `d.update(h)`: assign every pair of h into d, in h's order. -/
def dictUpdate (d : Dict) (h : Dict) : Dict :=
  h.foldl (fun acc p => dictSet acc p.1 p.2) d

/-- Python set.add on a set represented as a duplicate-free list. -/
def setAdd (s : List String) (x : String) : List String :=
  if x ∈ s then s else s ++ [x]

/-- A raw proxy candidate as returned by the external proxy source:
a (proxy_type, host, port) triple. -/
abbrev Cand := String × String × String

/-- ProxyItem (downloader.py lines 69-102): a proxy identity together with a
use counter and a reuse cap. -/
structure ProxyItem : Type where
  max_reused_num : Nat
  proxy_counter : Nat
  proxy_type : String
  host : Option String
  deriving DecidableEq

/-- ProxyItem.__init__ (lines 74-85).  `settingPROXY_MAX_NUM` stands for the
configuration value setting.PROXY_MAX_NUM: the setting module is not among
the embedded sources; per the spec the configured reuse cap is a positive
integer supplied by the configuration collaborator at construction time.
`proxy_type or "http"` treats both None and the empty string as falsy. -/
def ProxyItem.init (settingPROXY_MAX_NUM : Nat) (proxy_type : Option String)
    (host : Option String) (proxy_max_num : Int) : ProxyItem :=
  { max_reused_num := if proxy_max_num ≤ 0 then settingPROXY_MAX_NUM else proxy_max_num.toNat
    proxy_counter := 0
    proxy_type := match proxy_type with
      | none => "http"
      | some s => if s = "" then "http" else s
    host := host }

/-- ProxyItem.get_proxy (lines 87-96): when the counter has reached the cap,
return the (None, None) sentinel without mutating; otherwise increment the
counter and return the (type, host) identity. -/
def ProxyItem.get_proxy (p : ProxyItem) : (Option String × Option String) × ProxyItem :=
  if p.max_reused_num ≤ p.proxy_counter then ((none, none), p)
  else ((some p.proxy_type, p.host), { p with proxy_counter := p.proxy_counter + 1 })

/-- ProxyItem.is_valid (lines 98-99). -/
def ProxyItem.is_valid (p : ProxyItem) : Bool :=
  p.proxy_counter < p.max_reused_num

/-- One step of repeated use of a single ProxyItem: the state after one
get_proxy call. -/
def ProxyItem.step (p : ProxyItem) : ProxyItem :=
  (ProxyItem.get_proxy p).2

/-- ProxyManager (lines 105-199).  `settingPROXY_MAX_NUM` and the queue
bound are fixed at construction; `proxy_list` is the cached raw candidate
list (set by init_proxy_queue / random_choice_proxy in the source; carried
as a field here).  The LIFO queue is a list whose head is the top. -/
structure ProxyManager : Type where
  settingPROXY_MAX_NUM : Nat
  proxy_max_num : Nat
  maxsize : Nat
  proxy_queue : List ProxyItem
  black_peoxies : List String
  proxy_list : List Cand
  deriving DecidableEq

/-- ProxyManager.__init__ (lines 110-123).  `settingPAROXY` stands for the
configuration value setting.PAROXY.  Note the queue is created with
maxsize = self.maxsize * 5, five times the configured pool size. -/
def ProxyManager.init (settingPROXY_MAX_NUM settingPAROXY : Nat)
    (proxy_max_num available_proxy : Int) (proxy_list0 : List Cand) : ProxyManager :=
  { settingPROXY_MAX_NUM := settingPROXY_MAX_NUM
    proxy_max_num := if proxy_max_num ≤ 0 then settingPROXY_MAX_NUM else proxy_max_num.toNat
    maxsize := if available_proxy ≤ 0 then settingPAROXY else available_proxy.toNat
    proxy_queue := []
    black_peoxies := []
    proxy_list := proxy_list0 }

/-- The capacity of the gevent LifoQueue: maxsize * 5 (line 121). -/
def ProxyManager.capacity (m : ProxyManager) : Nat :=
  m.maxsize * 5

/-- ProxyManager.random_choice_proxy (lines 125-143).  `refill` is the list
the external source (proxy.get_proxy(self.proxy_url)) would return if
consulted; `ridx` is the random draw, reduced modulo the list length exactly
as int(random.random() * len) ranges over [0, len).  A pop from an empty
list raises IndexError, caught by the bare except, which returns
(None, None). -/
def ProxyManager.random_choice_proxy (m : ProxyManager) (refill : List Cand)
    (ridx : Nat) : (Option String × Option String) × ProxyManager :=
  let lst := if m.proxy_list.length ≤ 1 then refill else m.proxy_list
  let i := if lst.length = 0 then 0 else ridx % lst.length
  match lst.get? i with
  | none => ((none, none), { m with proxy_list := lst })
  | some c => ((some c.1, some (c.2.1 ++ ":" ++ c.2.2)), { m with proxy_list := lst.eraseIdx i })

/-- ProxyManager.update_black_peoxies (lines 145-155): record the failed
endpoint in the blacklist set when it is truthy, then draw a fresh raw
candidate pair via random_choice_proxy and return it. -/
def ProxyManager.update_black_peoxies (m : ProxyManager) (host : String)
    (refill : List Cand) (ridx : Nat) : (Option String × Option String) × ProxyManager :=
  let m1 := if host ≠ "" then { m with black_peoxies := setAdd m.black_peoxies host } else m
  m1.random_choice_proxy refill ridx

/-- ProxyManager.put_proxy (lines 172-181): non-blocking put; when the queue
holds capacity (= maxsize * 5) items, gevent.queue.Full is raised, caught,
logged at debug level, and the incoming item is discarded. -/
def ProxyManager.put_proxy (m : ProxyManager) (item : ProxyItem) : ProxyManager :=
  if m.proxy_queue.length < m.capacity then { m with proxy_queue := item :: m.proxy_queue }
  else m

/-- ProxyManager.get_proxy (lines 183-199).  On an empty queue the Empty
exception is caught and a fresh ProxyItem is synthesized from a raw
candidate.  On a non-empty queue the popped item is tested with
`proxy_item.isvalid()` - but ProxyItem defines only is_valid, so this
attribute lookup raises AttributeError.  The pop has already happened, so
the error is returned together with the mutated state. -/
def ProxyManager.get_proxy (m : ProxyManager) (refill : List Cand) (ridx : Nat) :
    Except PyErr ProxyItem × ProxyManager :=
  match m.proxy_queue with
  | [] =>
    let r := m.random_choice_proxy refill ridx
    (Except.ok (ProxyItem.init m.settingPROXY_MAX_NUM r.1.1 r.1.2 (Int.ofNat m.proxy_max_num)), r.2)
  | _ :: rest =>
    (Except.error PyErr.attributeError, { m with proxy_queue := rest })

/-- The retry decorator (downloader.py lines 37-66), state-threaded: the
wrapped function f receives the zero-based attempt index and the current
state (the Python object graph reachable from self) and returns its result
with the new state.  The while loop counts mtries down; a failure matching
ExceptionToCheck (here: `retryable`) sleeps, rescales the delay, decrements
mtries and records lastException; a non-matching failure propagates at
once.  When the loop ends, `raise lastException` re-raises the recorded
error - or raises NameError when no attempt ever ran (tries = 0), since
lastException is then unbound.  The result carries the final state and the
number of times f was invoked. -/
def retryLoop {σ α : Type} (retryable : PyErr → Bool)
    (f : Nat → σ → Except PyErr α × σ) :
    Nat → Nat → Nat → Nat → σ → Option PyErr → Except PyErr α × σ × Nat
  | 0, _, _, k, s, last =>
    ((match last with
      | some e => Except.error e
      | none => Except.error PyErr.nameError), s, k)
  | Nat.succ m, mdelay, backoff, k, s, last =>
    match f k s with
    | (Except.ok a, s') => (Except.ok a, s', k + 1)
    | (Except.error e, s') =>
      if retryable e then retryLoop retryable f m (mdelay * backoff) backoff (k + 1) s' (some e)
      else (Except.error e, s', k + 1)

/-- Run the retry wrapper: mtries starts at `tries`, mdelay at `delay`, with
no attempts made and no recorded exception. -/
def retryRun {σ α : Type} (retryable : PyErr → Bool) (tries delay backoff : Nat)
    (f : Nat → σ → Except PyErr α × σ) (s0 : σ) : Except PyErr α × σ × Nat :=
  retryLoop retryable f tries delay backoff 0 s0 none

/-- The state trajectory of the wrapped function: `iterFrom f k s n` is the
state after running attempts k, k+1, ..., k+n-1 in sequence from state s. -/
def iterFrom {σ α : Type} (f : Nat → σ → Except PyErr α × σ) (k : Nat) (s : σ) :
    Nat → σ
  | 0 => s
  | Nat.succ n => (f (k + n) (iterFrom f k s n)).2

/-- One Acquire or Release operation on the pool, for stating invariants
over operation sequences (no blacklisting). -/
inductive PoolOp : Type
  | acquire (refill : List Cand) (ridx : Nat)
  | release (item : ProxyItem)

/-- Apply one pool operation to the manager state. -/
def ProxyManager.applyOp (m : ProxyManager) : PoolOp → ProxyManager
  | PoolOp.acquire refill ridx => (m.get_proxy refill ridx).2
  | PoolOp.release item => m.put_proxy item

/-- Apply a sequence of pool operations, oldest first. -/
def ProxyManager.applyOps (m : ProxyManager) (ops : List PoolOp) : ProxyManager :=
  ops.foldl ProxyManager.applyOp m

/-- The outcome of one transport call (requests.Session.request), seen as an
oracle: either a response with a final status code, or one of the failure
kinds the source distinguishes; `hang` is an execution exceeding the outer
gevent.Timeout guard, which the source converts to requests Timeout. -/
inductive TransportResult : Type
  | ok (status_code : Nat)
  | timeoutExc
  | requestExc
  | otherExc
  | hang
  deriving DecidableEq

/-- The oracle inputs one attempt consumes: the candidate list the external
proxy source would return, the random draw, and the transport outcome. -/
structure AttemptOracle : Type where
  refill : List Cand
  ridx : Nat
  transport : TransportResult

/-- The observable part of a requests response: the final status code and
the proxies attribute attached at line 320 (the kwargs proxies entry, a
dict keyed by scheme). -/
structure Response : Type where
  status_code : Nat
  proxies : Option (String × String)
  deriving DecidableEq

/-- requests.Response.raise_for_status (external library, documented
behavior): raise HTTPError exactly when the code is a 4xx client error or
5xx server error, i.e. 400 ≤ code < 600; do nothing otherwise. -/
def raise_for_status (code : Nat) : Except PyErr Unit :=
  if 400 ≤ code ∧ code < 600 then Except.error (PyErr.httpError code) else Except.ok ()

/-- The status classification of _download (lines 309-314): codes outside
(200, 404, 410) are logged and, when the local keep_status_code flag is
unset, passed to raise_for_status; 404 and 410 are logged only. -/
def statusClassify (code : Nat) (keep_status_code : Bool) : Except PyErr Unit :=
  if ¬(code = 200 ∨ code = 404 ∨ code = 410) then
    if ¬keep_status_code then raise_for_status code else Except.ok ()
  else Except.ok ()

/-- Downloader state (lines 207-236).  When proxy_enable is false the
source never creates the proxy_manager attribute; the field is carried but
untouched on that path.  The timeout field holds the clamped configured
timeout; the transport oracle already accounts for it. -/
structure Downloader : Type where
  cookies_enable : Bool
  proxy_enable : Bool
  headers : Dict
  proxy_manager : ProxyManager
  timeout : Int
  keep_status_code : Bool

/-- Downloader.__init__ (lines 207-236): default headers built from the
configured user agent; timeout clamped to (0, 120] with fallback 30;
keep_status_code initialized to False. -/
def Downloader.init (settingPROXY_MAX_NUM settingPAROXY : Nat)
    (settingUSER_AGENT : String) (proxy_enable : Bool)
    (proxy_max_num available_proxy : Int) (cookeis_enable : Bool)
    (timeout : Int) (proxy_list0 : List Cand) : Downloader :=
  { cookies_enable := cookeis_enable
    proxy_enable := proxy_enable
    headers := [("Accept", "text/html, application/xhtml+xml, application/xml;q=0.9,*/*;q=0.8"),
                ("User-Agent", settingUSER_AGENT)]
    proxy_manager := ProxyManager.init settingPROXY_MAX_NUM settingPAROXY
      proxy_max_num available_proxy proxy_list0
    timeout := if timeout > 120 ∨ timeout ≤ 0 then 30 else timeout
    keep_status_code := false }

/-- The kwargs slot for the "proxies" key as the attempt sees it: none when
the key is absent from kwargs, `some v` when present with value v (the
kwargs dict persists across retry attempts, so a slot set by an earlier
attempt is kept by line 279's membership test). -/
abbrev ProxySlot := Option (Option (String × String))

/-- The body of one _download attempt for a URL-string request, from the
gevent.Timeout guard (line 276) to the return (line 343), after the proxy
map has been computed.  For a string request the local keep_status_code
flag stays 0 (lines 289-296 run only for dict requests).  On a successful
classification the used ProxyItem is put back (line 318), the response is
tagged with the kwargs proxies entry (line 320) and closed.  The inner
exception arms re-raise with is_exc set; a fired gevent.Timeout is
converted to requests.exceptions.Timeout (lines 334-336); the guard is
cancelled on every path. -/
def Downloader.attemptCore (d : Downloader) (item : Option ProxyItem)
    (slot : ProxySlot) (o : AttemptOracle) :
    Except PyErr Response × Downloader × ProxySlot :=
  match o.transport with
  | TransportResult.hang => (Except.error PyErr.timeout, d, slot)
  | TransportResult.timeoutExc => (Except.error PyErr.timeout, d, slot)
  | TransportResult.requestExc => (Except.error PyErr.requestException, d, slot)
  | TransportResult.otherExc => (Except.error PyErr.otherError, d, slot)
  | TransportResult.ok code =>
    match statusClassify code false with
    | Except.error e => (Except.error e, d, slot)
    | Except.ok _ =>
      let d' :=
        if d.proxy_enable then
          match item with
          | some it => { d with proxy_manager := d.proxy_manager.put_proxy it }
          | none => d
        else d
      (Except.ok { status_code := code, proxies := slot.getD none }, d', slot)

/-- One _download attempt on a URL-string request (lines 249-343).  The
deep copy of a string request is the identity.  With proxy mode enabled the
pool's get_proxy runs before the try block, so its AttributeError
propagates directly; otherwise the item's identity is taken via
ProxyItem.get_proxy and turned into a proxies map when the host is present.
The kwargs "proxies" entry is only written when the key is absent
(line 279). -/
def Downloader.downloadAttempt (d : Downloader) (url : String) (kwHeaders : Dict)
    (slot : ProxySlot) (o : AttemptOracle) :
    Except PyErr Response × Downloader × ProxySlot :=
  if d.proxy_enable then
    match d.proxy_manager.get_proxy o.refill o.ridx with
    | (Except.error e, m') => (Except.error e, { d with proxy_manager := m' }, slot)
    | (Except.ok item, m') =>
      let pr := item.get_proxy
      let proxiesVal : Option (String × String) :=
        match pr.1 with
        | (some t, some hst) => some (t, t ++ "://" ++ hst)
        | _ => none
      let slot' := if slot = none then some proxiesVal else slot
      Downloader.attemptCore { d with proxy_manager := m' } (some pr.2) slot' o
  else
    let slot' := if slot = none then some none else slot
    Downloader.attemptCore d none slot' o

/-- The headers value that download writes into kwargs (lines 352-354):
self.headers.update(callers headers) followed by
kwargs.update(headers=self.headers). -/
def Downloader.mergedHeaders (d : Downloader) (callHeaders : Option Dict) : Dict :=
  dictUpdate d.headers (callHeaders.getD [])

/-- The four except clauses of download (lines 358-365): gevent.Timeout,
requests Timeout, RequestException and Exception all fall through to
returning the initial `response = None`. -/
def downloadCatch (e : PyErr) : Except PyErr (Option Response) :=
  if e = PyErr.geventTimeout then Except.ok none
  else if e = PyErr.timeout then Except.ok none
  else if e.isRequestException then Except.ok none
  else if e.isException then Except.ok none
  else Except.error e

/-- Downloader.download for a URL-string request (lines 345-367): merge the
caller's headers into the instance's default headers (mutating them), run
the retry-wrapped _download (retry(Exception), tries=2, delay=1, backoff=2;
gevent.Timeout is not an Exception subclass so it is not retryable), and
convert any surviving failure to no response.  `oracles k` supplies the
oracle inputs for attempt k. -/
def Downloader.download (d : Downloader) (url : String) (callHeaders : Option Dict)
    (oracles : Nat → AttemptOracle) :
    Except PyErr (Option Response) × Downloader :=
  let newHeaders := d.mergedHeaders callHeaders
  let d0 := { d with headers := newHeaders }
  let r := retryRun (fun e => e.isException) 2 1 2
    (fun k s => Downloader.downloadAttempt s.1 url newHeaders s.2 (oracles k))
    (d0, (none : ProxySlot))
  ((match r.1 with
    | Except.ok resp => Except.ok (some resp)
    | Except.error e => downloadCatch e), r.2.1.1)

/-- The transport option whitelist (lines 232-234). -/
def requests_module_kwargs : List String :=
  ["params", "data", "json", "headers", "cookies", "files", "auth", "timeout",
   "allow_redirects", "proxies", "verify", "stream", "cert"]

/-- A structured (dict) request, seen at the granularity the dispatch logic
needs: its key set in insertion order, the value at its "method" key, and
the value at request["meta"]["keep_status_code"], when present. -/
structure DictRequest : Type where
  keys : List String
  method : Option String
  meta_keep_status_code : Option Bool

/-- Add one key to a key list, Python-dict style: existing keys keep their
position, new keys are appended. -/
def keysAdd (ks : List String) (k : String) : List String :=
  if k ∈ ks then ks else ks ++ [k]

/-- The key set after dict.update with the given new keys. -/
def keysUpdate (ks : List String) (new : List String) : List String :=
  new.foldl keysAdd ks

/-- The dict-request normalization of _download (lines 279-306) at key
granularity, for a call whose kwargs initially hold the keys kw0: add
"proxies" when absent (line 279), set "stream" and "timeout" (line 282),
compute default_method from the kwargs BEFORE the request fields are
merged (line 287), read meta.keep_status_code with self.keep_status_code
as the default (lines 289-296), let an explicit request method win
(lines 298-299), merge the request's fields (line 301), then strip keys
outside the whitelist (lines 303-305).  The strip loop pops from the dict
it is iterating, and in CPython the first pop invalidates the iterator:
the very next iteration step raises RuntimeError.  Hence the loop
completes only when every key is whitelisted, and raises RuntimeError
otherwise.  On completion the method, the keep flag and the final key set
reach the dispatch at line 306. -/
def Downloader.dictDispatch (d : Downloader) (req : DictRequest) (kw0 : List String) :
    Except PyErr (String × Bool × List String) :=
  let kw1 := if "proxies" ∈ kw0 then kw0 else kw0 ++ ["proxies"]
  let kw2 := keysUpdate kw1 ["stream", "timeout"]
  let default_method := if "data" ∈ kw2 then "POST" else "GET"
  let keep := req.meta_keep_status_code.getD d.keep_status_code
  let method := req.method.getD default_method
  let kw3 := keysUpdate kw2 req.keys
  if kw3.all (fun k => decide (k ∈ requests_module_kwargs)) then
    Except.ok (method, keep, kw3)
  else Except.error PyErr.runtimeError

/-- A concrete Downloader with proxy mode disabled, for closed evaluations:
reuse cap 10, pool size 20, user agent "UA", timeout 30, no candidates. -/
def dNoProxy : Downloader :=
  Downloader.init 10 20 "UA" false 10 20 false 30 []

/-- Modelled from the spec: `Blacklist(endpoint)` adds the endpoint to the
blacklist set and immediately calls `Acquire()` (ProxyManager.get_proxy)
again, returning the replacement.  Stated for comparison against the
source's update_black_peoxies, which instead calls random_choice_proxy. -/
def blacklistSpec (m : ProxyManager) (host : String) (refill : List Cand)
    (ridx : Nat) : Except PyErr ProxyItem × ProxyManager :=
  let m1 := if host ≠ "" then { m with black_peoxies := setAdd m.black_peoxies host } else m
  m1.get_proxy refill ridx

/-- A fresh proxy record: cap 10, counter 0, identity http, 1.2.3.4:80. -/
def itFresh : ProxyItem := ProxyItem.init 10 (some "http") (some "1.2.3.4:80") 10

/-- A fresh proxy record with identity 1.1.1.1:80. -/
def itA : ProxyItem := ProxyItem.init 10 (some "http") (some "1.1.1.1:80") 10

/-- A fresh proxy record with identity 2.2.2.2:80. -/
def itB : ProxyItem := ProxyItem.init 10 (some "http") (some "2.2.2.2:80") 10

/-- An exhausted proxy record: counter already at the cap. -/
def itEx : ProxyItem := { itFresh with proxy_counter := 10 }

/-- A pool of configured size 20 with an empty store. -/
def mgr20 : ProxyManager := ProxyManager.init 10 20 10 20 []

/-- A pool of configured size 20 whose LIFO store holds one fresh record. -/
def mgrOne : ProxyManager := { mgr20 with proxy_queue := [itFresh] }

/-- A pool of configured size 1 with an empty store. -/
def mgrCap1 : ProxyManager := ProxyManager.init 10 20 10 1 []

/-- A pool of configured size 1 whose store is at the queue bound (5). -/
def mgrFull : ProxyManager := { mgrCap1 with proxy_queue := List.replicate 5 itA }

/-- A pool with one stored record and three cached raw candidates. -/
def mgrBL : ProxyManager :=
  { (ProxyManager.init 10 20 10 20
      [("http", "h", "80"), ("http", "g", "81"), ("http", "f", "82")]) with
    proxy_queue := [itFresh] }

/-- A structured request whose only field is data (a body), no method. -/
def reqDataOnly : DictRequest := { keys := ["data"], method := none, meta_keep_status_code := none }

/-- The structured request of the spec's scenario C: url and data fields,
no explicit method. -/
def reqScenC : DictRequest := { keys := ["url", "data"], method := none, meta_keep_status_code := none }

/-- random_choice_proxy touches only the cached candidate list: the LIFO
store, the configured size and the blacklist are unchanged. -/
theorem random_choice_fields (m : ProxyManager) (r : List Cand) (i : Nat) :
    (m.random_choice_proxy r i).2.proxy_queue = m.proxy_queue ∧
    (m.random_choice_proxy r i).2.maxsize = m.maxsize ∧
    (m.random_choice_proxy r i).2.black_peoxies = m.black_peoxies := by
  unfold ProxyManager.random_choice_proxy
  dsimp only
  split <;> exact ⟨rfl, rfl, rfl⟩

/-- ProxyManager.get_proxy never grows the LIFO store and preserves the
configured size. -/
theorem get_proxy_state (m : ProxyManager) (r : List Cand) (i : Nat) :
    (m.get_proxy r i).2.proxy_queue.length ≤ m.proxy_queue.length ∧
    (m.get_proxy r i).2.maxsize = m.maxsize := by
  unfold ProxyManager.get_proxy
  cases hq : m.proxy_queue with
  | nil =>
    have h := random_choice_fields m r i
    exact ⟨by rw [h.1, hq], h.2.1⟩
  | cons a rest =>
    exact ⟨by simp [hq], rfl⟩

/-- put_proxy grows the store by at most one and only below capacity, and
preserves the configured size. -/
theorem put_proxy_state (m : ProxyManager) (it : ProxyItem) :
    ((m.proxy_queue.length < m.capacity ∧
        (m.put_proxy it).proxy_queue.length = m.proxy_queue.length + 1) ∨
      (¬m.proxy_queue.length < m.capacity ∧ m.put_proxy it = m)) ∧
    (m.put_proxy it).maxsize = m.maxsize := by
  unfold ProxyManager.put_proxy
  by_cases h : m.proxy_queue.length < m.capacity
  · simp [h]
  · simp [h]

/-- One pool operation preserves the capacity invariant and the size. -/
theorem applyOp_inv (m : ProxyManager) (op : PoolOp)
    (h : m.proxy_queue.length ≤ m.capacity) :
    (m.applyOp op).proxy_queue.length ≤ (m.applyOp op).capacity ∧
    (m.applyOp op).maxsize = m.maxsize := by
  cases op with
  | acquire r i =>
    have hs := get_proxy_state m r i
    have hm : (m.applyOp (PoolOp.acquire r i)).maxsize = m.maxsize := hs.2
    refine ⟨?_, hm⟩
    show (m.get_proxy r i).2.proxy_queue.length ≤ (m.get_proxy r i).2.maxsize * 5
    rw [hs.2]
    exact le_trans hs.1 h
  | release it =>
    have hs := put_proxy_state m it
    have hm : (m.applyOp (PoolOp.release it)).maxsize = m.maxsize := hs.2
    refine ⟨?_, hm⟩
    show (m.put_proxy it).proxy_queue.length ≤ (m.put_proxy it).maxsize * 5
    rw [hs.2]
    rcases hs.1 with ⟨hlt, hlen⟩ | ⟨_, heq⟩
    · rw [hlen]
      exact hlt
    · rw [heq]
      exact h

/-- The capacity invariant is preserved by every operation sequence. -/
theorem applyOps_inv (ops : List PoolOp) :
    ∀ m : ProxyManager, m.proxy_queue.length ≤ m.capacity →
      (m.applyOps ops).proxy_queue.length ≤ (m.applyOps ops).capacity ∧
      (m.applyOps ops).maxsize = m.maxsize := by
  induction ops with
  | nil => exact fun m h => ⟨h, rfl⟩
  | cons op ops ih =>
    intro m h
    have h1 := applyOp_inv m op h
    have h2 := ih (m.applyOp op) h1.1
    constructor
    · show ((m.applyOp op).applyOps ops).proxy_queue.length ≤ ((m.applyOp op).applyOps ops).capacity
      exact h2.1
    · show ((m.applyOp op).applyOps ops).maxsize = m.maxsize
      rw [h2.2, h1.2]

/-- Every exception kind reaching download's except clauses is converted to
the no-response result. -/
theorem downloadCatch_eq_none (e : PyErr) : downloadCatch e = Except.ok none := by
  cases e <;> rfl

/-- When every attempt of the wrapped function fails, the retry loop ends
in an error, whatever the retryability classification. -/
theorem retryLoop_all_fail_error {σ α : Type} (retryable : PyErr → Bool)
    (f : Nat → σ → Except PyErr α × σ)
    (hf : ∀ k s, ∃ e, (f k s).1 = Except.error e) :
    ∀ (m dl bo k : Nat) (s : σ) (last : Option PyErr),
      ∃ e, (retryLoop retryable f m dl bo k s last).1 = Except.error e := by
  intro m
  induction m with
  | zero =>
    intro dl bo k s last
    cases last with
    | none => exact ⟨PyErr.nameError, rfl⟩
    | some e => exact ⟨e, rfl⟩
  | succ m ih =>
    intro dl bo k s last
    obtain ⟨e, he⟩ := hf k s
    rcases hfk : f k s with ⟨res, s'⟩
    rw [hfk] at he
    simp only at he
    subst he
    by_cases hr : retryable e
    · have hred : retryLoop retryable f (m + 1) dl bo k s last =
          retryLoop retryable f m (dl * bo) bo (k + 1) s' (some e) := by
        rw [retryLoop, hfk]
        simp [hr]
      rw [hred]
      exact ih (dl * bo) bo (k + 1) s' (some e)
    · have hred : retryLoop retryable f (m + 1) dl bo k s last = (Except.error e, s', k + 1) := by
        rw [retryLoop, hfk]
        simp [hr]
      rw [hred]
      exact ⟨e, rfl⟩

/-- The attempt count of the retry loop lies between the attempts already
made and that plus the remaining budget; with budget left, at least one
more attempt runs. -/
theorem retryLoop_count {σ α : Type} (retryable : PyErr → Bool)
    (f : Nat → σ → Except PyErr α × σ) :
    ∀ (m dl bo k : Nat) (s : σ) (last : Option PyErr),
      k ≤ (retryLoop retryable f m dl bo k s last).2.2 ∧
      (retryLoop retryable f m dl bo k s last).2.2 ≤ k + m ∧
      (1 ≤ m → k + 1 ≤ (retryLoop retryable f m dl bo k s last).2.2) := by
  intro m
  induction m with
  | zero =>
    intro dl bo k s last
    have hk : (retryLoop retryable f 0 dl bo k s last).2.2 = k := rfl
    rw [hk]
    exact ⟨le_refl k, by omega, by omega⟩
  | succ m ih =>
    intro dl bo k s last
    rcases hfk : f k s with ⟨res, s'⟩
    cases res with
    | ok a =>
      have hred : retryLoop retryable f (m + 1) dl bo k s last = (Except.ok a, s', k + 1) := by
        rw [retryLoop, hfk]
      rw [hred]
      exact ⟨by dsimp only; omega, by dsimp only; omega, by dsimp only; omega⟩
    | error e =>
      by_cases hr : retryable e
      · have hred : retryLoop retryable f (m + 1) dl bo k s last =
            retryLoop retryable f m (dl * bo) bo (k + 1) s' (some e) := by
          rw [retryLoop, hfk]
          simp [hr]
        rw [hred]
        have := ih (dl * bo) bo (k + 1) s' (some e)
        exact ⟨by omega, by omega, by omega⟩
      · have hred : retryLoop retryable f (m + 1) dl bo k s last = (Except.error e, s', k + 1) := by
          rw [retryLoop, hfk]
          simp [hr]
        rw [hred]
        exact ⟨by dsimp only; omega, by dsimp only; omega, by dsimp only; omega⟩

/-- Shifting the attempt trajectory by one step. -/
theorem iterFrom_shift {σ α : Type} (f : Nat → σ → Except PyErr α × σ)
    (k : Nat) (s : σ) :
    ∀ n, iterFrom f (k + 1) (f k s).2 n = iterFrom f k s (n + 1) := by
  intro n
  induction n with
  | zero => rfl
  | succ n ih =>
    show (f (k + 1 + n) (iterFrom f (k + 1) (f k s).2 n)).2 = iterFrom f k s (n + 2)
    rw [ih]
    have hkn : k + 1 + n = k + (n + 1) := by omega
    rw [hkn]
    rfl

/-- When every attempt fails with a retryable error, the retry loop with
budget m+1 makes exactly m+1 further attempts, threads the state along the
attempt trajectory, and surfaces the error of the last attempt. -/
theorem retryLoop_all_fail_eq {σ α : Type} (retryable : PyErr → Bool)
    (f : Nat → σ → Except PyErr α × σ)
    (hf : ∀ k s, ∃ e, (f k s).1 = Except.error e ∧ retryable e = true) :
    ∀ (m dl bo k : Nat) (s : σ) (last : Option PyErr),
      retryLoop retryable f (m + 1) dl bo k s last =
        ((f (k + m) (iterFrom f k s m)).1, iterFrom f k s (m + 1), k + (m + 1)) := by
  intro m
  induction m with
  | zero =>
    intro dl bo k s last
    obtain ⟨e, he, hr⟩ := hf k s
    rcases hfk : f k s with ⟨res, s'⟩
    rw [hfk] at he
    simp only at he
    subst he
    have hred : retryLoop retryable f 1 dl bo k s last = (Except.error e, s', k + 1) := by
      rw [retryLoop, hfk]
      simp [hr]
      rfl
    rw [hred]
    have h0 : iterFrom f k s 0 = s := rfl
    have h1 : iterFrom f k s 1 = (f (k + 0) s).2 := rfl
    rw [h0, h1]
    have hk : k + 0 = k := by omega
    rw [hk, hfk]
  | succ m ih =>
    intro dl bo k s last
    obtain ⟨e, he, hr⟩ := hf k s
    rcases hfk : f k s with ⟨res, s'⟩
    rw [hfk] at he
    simp only at he
    subst he
    have hred : retryLoop retryable f (m + 1 + 1) dl bo k s last =
        retryLoop retryable f (m + 1) (dl * bo) bo (k + 1) s' (some e) := by
      rw [retryLoop, hfk]
      simp [hr]
    rw [hred]
    rw [ih (dl * bo) bo (k + 1) s' (some e)]
    have hs' : s' = (f k s).2 := by rw [hfk]
    subst hs'
    rw [iterFrom_shift f k s m, iterFrom_shift f k s (m + 1)]
    have h1 : k + 1 + m = k + (m + 1) := by omega
    have h2 : k + 1 + (m + 1) = k + (m + 1 + 1) := by omega
    rw [h1, h2]

/-- dict.update with nothing changes nothing. -/
theorem dictUpdate_nil (d : Dict) : dictUpdate d [] = d := rfl

/-- Membership after a Python-dict-style key insertion. -/
theorem mem_keysAdd (x k : String) (ks : List String) :
    x ∈ keysAdd ks k ↔ x ∈ ks ∨ x = k := by
  unfold keysAdd
  by_cases h : k ∈ ks
  · rw [if_pos h]
    constructor
    · exact fun hx => Or.inl hx
    · rintro (hx | rfl)
      · exact hx
      · exact h
  · rw [if_neg h, List.mem_append, List.mem_singleton]

/-- An attempt never rewrites the instance's default headers. -/
theorem downloadAttempt_headers (dd : Downloader) (url : String) (hd : Dict)
    (slot : ProxySlot) (o : AttemptOracle) :
    (Downloader.downloadAttempt dd url hd slot o).2.1.headers = dd.headers := by
  have hcore : ∀ (d2 : Downloader) (item : Option ProxyItem) (sl : ProxySlot),
      (Downloader.attemptCore d2 item sl o).2.1.headers = d2.headers := by
    intro d2 item sl
    unfold Downloader.attemptCore
    cases o.transport with
    | ok code =>
      dsimp only
      cases statusClassify code false with
      | error e => rfl
      | ok u =>
        dsimp only
        by_cases hp : d2.proxy_enable
        · cases item <;> simp [hp]
        · simp [hp]
    | timeoutExc => rfl
    | requestExc => rfl
    | otherExc => rfl
    | hang => rfl
  unfold Downloader.downloadAttempt
  by_cases hp : dd.proxy_enable = true
  · rw [if_pos hp]
    rcases hg : dd.proxy_manager.get_proxy o.refill o.ridx with ⟨res, m'⟩
    cases res with
    | error e => rfl
    | ok item => exact hcore _ _ _
  · rw [if_neg hp]
    exact hcore _ _ _

/-- A state predicate preserved by every attempt is preserved by the whole
retry loop. -/
theorem retryLoop_preserve {σ α : Type} (P : σ → Prop) (retryable : PyErr → Bool)
    (f : Nat → σ → Except PyErr α × σ) (hf : ∀ k s, P s → P (f k s).2) :
    ∀ (m dl bo k : Nat) (s : σ) (last : Option PyErr),
      P s → P (retryLoop retryable f m dl bo k s last).2.1 := by
  intro m
  induction m with
  | zero => exact fun dl bo k s last h => h
  | succ m ih =>
    intro dl bo k s last h
    rcases hfk : f k s with ⟨res, s'⟩
    have hs' : P s' := by
      have hps := hf k s h
      rw [hfk] at hps
      exact hps
    cases res with
    | ok a =>
      have hred : retryLoop retryable f (m + 1) dl bo k s last = (Except.ok a, s', k + 1) := by
        rw [retryLoop, hfk]
      rw [hred]
      exact hs'
    | error e =>
      by_cases hr : retryable e
      · have hred : retryLoop retryable f (m + 1) dl bo k s last =
            retryLoop retryable f m (dl * bo) bo (k + 1) s' (some e) := by
          rw [retryLoop, hfk]
          simp [hr]
        rw [hred]
        exact ih (dl * bo) bo (k + 1) s' (some e) hs'
      · have hred : retryLoop retryable f (m + 1) dl bo k s last = (Except.error e, s', k + 1) := by
          rw [retryLoop, hfk]
          simp [hr]
        rw [hred]
        exact hs'

/-- The Downloader state returned by download carries the merged headers. -/
theorem download_headers (d : Downloader) (url : String) (ch : Option Dict)
    (o : Nat → AttemptOracle) :
    (d.download url ch o).2.headers = d.mergedHeaders ch := by
  have hpres := retryLoop_preserve (σ := Downloader × ProxySlot) (α := Response)
    (fun s => s.1.headers = d.mergedHeaders ch) (fun e => e.isException)
    (fun k s => Downloader.downloadAttempt s.1 url (d.mergedHeaders ch) s.2 (o k))
    (fun k s h => by
      show (Downloader.downloadAttempt s.1 url (d.mergedHeaders ch) s.2 (o k)).2.1.headers =
        d.mergedHeaders ch
      rw [downloadAttempt_headers]
      exact h)
    2 1 2 0 ({ d with headers := d.mergedHeaders ch }, (none : ProxySlot)) none rfl
  exact hpres

/-- An attempt whose transport call times out always ends in an error (a
Timeout, or the pool's AttributeError when the store is non-empty). -/
theorem downloadAttempt_timeout_fails (dd : Downloader) (url : String) (hd : Dict)
    (slot : ProxySlot) (rf : List Cand) (ri : Nat) :
    ∃ e, (Downloader.downloadAttempt dd url hd slot
      { refill := rf, ridx := ri, transport := TransportResult.timeoutExc }).1 =
        Except.error e := by
  unfold Downloader.downloadAttempt
  by_cases hp : dd.proxy_enable = true
  · rw [if_pos hp]
    unfold ProxyManager.get_proxy
    cases hq : dd.proxy_manager.proxy_queue with
    | nil => exact ⟨PyErr.timeout, rfl⟩
    | cons a rest => exact ⟨PyErr.attributeError, rfl⟩
  · rw [if_neg hp]
    exact ⟨PyErr.timeout, rfl⟩

/-- Claim C1: Acquire (ProxyManager.get_proxy) is claimed always to return
a record and never to raise.  Evaluated on a pool whose LIFO store holds
one fresh, valid record, the code instead raises AttributeError: line 196
calls proxy_item.isvalid() while the method is named is_valid (and the
exhausted-record branch would fall through, returning Python None).  The
empty-store fallback does return a synthesized record with empty host when
the candidate list yields nothing. -/
theorem claim_C1_acquire_raises :
    (mgrOne.get_proxy [] 0).1 = Except.error PyErr.attributeError ∧
    mgrOne.proxy_queue = [itFresh] ∧
    itFresh.is_valid = true ∧
    ((ProxyManager.init 10 20 10 20 []).get_proxy [] 0).1 =
      Except.ok (ProxyItem.init 10 none none 10) :=
  ⟨rfl, rfl, rfl, rfl⟩

/-- Claim C2: ProxyItem reuse accounting: on every use trajectory from
construction the counter never exceeds the cap; a successful TryUse
returns the identity and increments the counter by one; once the counter
has reached the cap, TryUse returns the empty sentinel without mutating
and is_valid is false. -/
theorem claim_C2_try_use_contract :
    (∀ (s : Nat) (ty h : Option String) (n : Int) (k : Nat),
        ((ProxyItem.step)^[k] (ProxyItem.init s ty h n)).proxy_counter ≤
          ((ProxyItem.step)^[k] (ProxyItem.init s ty h n)).max_reused_num) ∧
    (∀ p : ProxyItem, p.proxy_counter < p.max_reused_num →
        p.get_proxy = ((some p.proxy_type, p.host),
          { p with proxy_counter := p.proxy_counter + 1 })) ∧
    (∀ p : ProxyItem, p.max_reused_num ≤ p.proxy_counter →
        p.get_proxy = ((none, none), p) ∧ p.is_valid = false) := by
  have hstep : ∀ q : ProxyItem, q.proxy_counter ≤ q.max_reused_num →
      (ProxyItem.step q).proxy_counter ≤ (ProxyItem.step q).max_reused_num := by
    intro q hq
    unfold ProxyItem.step ProxyItem.get_proxy
    by_cases hle : q.max_reused_num ≤ q.proxy_counter
    · rw [if_pos hle]
      exact hq
    · rw [if_neg hle]
      exact Nat.succ_le_of_lt (Nat.lt_of_not_le hle)
  refine ⟨?_, ?_, ?_⟩
  · intro s ty h n k
    induction k with
    | zero => exact Nat.zero_le _
    | succ k ih =>
      rw [Function.iterate_succ_apply']
      exact hstep _ ih
  · intro p hp
    unfold ProxyItem.get_proxy
    rw [if_neg (Nat.not_le.mpr hp)]
  · intro p hp
    constructor
    · unfold ProxyItem.get_proxy
      rw [if_pos hp]
    · unfold ProxyItem.is_valid
      exact decide_eq_false (Nat.not_lt.mpr hp)

/-- Claim C2 witness: the contract at concrete records: a fresh record
after three uses, a fresh record's successful use, and an exhausted
record. -/
theorem claim_C2_witness :
    ((ProxyItem.step)^[3] (ProxyItem.init 10 (some "http") (some "1.2.3.4:80") 10)).proxy_counter ≤
      ((ProxyItem.step)^[3] (ProxyItem.init 10 (some "http") (some "1.2.3.4:80") 10)).max_reused_num ∧
    itFresh.get_proxy = ((some itFresh.proxy_type, itFresh.host),
      { itFresh with proxy_counter := itFresh.proxy_counter + 1 }) ∧
    (itEx.get_proxy = ((none, none), itEx) ∧ itEx.is_valid = false) :=
  ⟨claim_C2_try_use_contract.1 10 (some "http") (some "1.2.3.4:80") 10 3,
    claim_C2_try_use_contract.2.1 itFresh (by decide),
    claim_C2_try_use_contract.2.2 itEx (by decide)⟩

/-- Claim C3 counterexample: with configured capacity N = 1 the queue bound
is maxsize * 5 = 5, so releasing two valid records stores both and the LIFO
store exceeds N. -/
theorem claim_C3_counterexample :
    mgrCap1.maxsize = 1 ∧ itA.is_valid = true ∧ itB.is_valid = true ∧
    ((mgrCap1.put_proxy itA).put_proxy itB).proxy_queue.length = 2 ∧
    mgrCap1.maxsize < ((mgrCap1.put_proxy itA).put_proxy itB).proxy_queue.length :=
  ⟨rfl, rfl, rfl, rfl, by decide⟩

/-- Claim C3 (amended): the LIFO store is bounded by the queue capacity
maxsize * 5, not by the configured maxsize: every Acquire/Release sequence
without blacklisting keeps the store at or below maxsize * 5, and a
release at the bound drops the incoming record, leaving the state
unchanged - a non-fatal no-op, not an error. -/
theorem claim_C3_amended_capacity :
    (∀ (m : ProxyManager) (ops : List PoolOp),
        m.proxy_queue.length ≤ m.capacity →
        (m.applyOps ops).proxy_queue.length ≤ (m.applyOps ops).capacity ∧
        (m.applyOps ops).capacity = m.capacity) ∧
    (∀ (m : ProxyManager) (it : ProxyItem),
        m.capacity ≤ m.proxy_queue.length → m.put_proxy it = m) := by
  constructor
  · intro m ops h
    have h1 := applyOps_inv ops m h
    refine ⟨h1.1, ?_⟩
    unfold ProxyManager.capacity
    rw [h1.2]
  · intro m it h
    unfold ProxyManager.put_proxy
    rw [if_neg (Nat.not_lt.mpr h)]

/-- Claim C3 witness: the bound on a capacity-1 pool over a concrete
release/release/acquire sequence, and the silent drop at a full store. -/
theorem claim_C3_witness :
    ((mgrCap1.applyOps
        [PoolOp.release itA, PoolOp.release itB, PoolOp.acquire [] 0]).proxy_queue.length ≤
      (mgrCap1.applyOps
        [PoolOp.release itA, PoolOp.release itB, PoolOp.acquire [] 0]).capacity ∧
      (mgrCap1.applyOps
        [PoolOp.release itA, PoolOp.release itB, PoolOp.acquire [] 0]).capacity =
        mgrCap1.capacity) ∧
    mgrFull.put_proxy itB = mgrFull :=
  ⟨claim_C3_amended_capacity.1 mgrCap1
      [PoolOp.release itA, PoolOp.release itB, PoolOp.acquire [] 0] (by decide),
    claim_C3_amended_capacity.2 mgrFull itB (by decide)⟩

/-- Claim C4: with a positive attempt budget the retry wrapper runs the
wrapped attempt at least once and at most tries times; when every attempt
fails with a retryable error, exactly tries attempts run and the surfaced
error is the one raised by the last attempt (index tries - 1, on the state
the earlier attempts produced). -/
theorem claim_C4_retry_bound {σ α : Type} (retryable : PyErr → Bool)
    (tries delay backoff : Nat) (f : Nat → σ → Except PyErr α × σ) (s0 : σ)
    (h : 1 ≤ tries) :
    (1 ≤ (retryRun retryable tries delay backoff f s0).2.2 ∧
      (retryRun retryable tries delay backoff f s0).2.2 ≤ tries) ∧
    ((∀ j s, ∃ e, (f j s).1 = Except.error e ∧ retryable e = true) →
      (retryRun retryable tries delay backoff f s0).2.2 = tries ∧
      (retryRun retryable tries delay backoff f s0).1 =
        (f (tries - 1) (iterFrom f 0 s0 (tries - 1))).1) := by
  obtain ⟨t, rfl⟩ : ∃ t, tries = t + 1 := ⟨tries - 1, by omega⟩
  unfold retryRun
  constructor
  · have hc := retryLoop_count retryable f (t + 1) delay backoff 0 s0 none
    exact ⟨hc.2.2 (by omega), by have := hc.2.1; omega⟩
  · intro hf
    have he := retryLoop_all_fail_eq retryable f hf t delay backoff 0 s0 none
    rw [he]
    constructor
    · dsimp only
      omega
    · dsimp only
      have h1 : 0 + t = t := by omega
      have h2 : t + 1 - 1 = t := by omega
      rw [h1, h2]

/-- Claim C4 witness: the bound at tries = 2 with an attempt that always
raises a retryable Timeout: exactly two attempts run and the Timeout of the
second surfaces. -/
theorem claim_C4_witness :
    (1 ≤ (retryRun (σ := Unit) (α := Unit) (fun _ => true) 2 1 2
        (fun _ _ => (Except.error PyErr.timeout, ())) ()).2.2 ∧
      (retryRun (σ := Unit) (α := Unit) (fun _ => true) 2 1 2
        (fun _ _ => (Except.error PyErr.timeout, ())) ()).2.2 ≤ 2) ∧
    (retryRun (σ := Unit) (α := Unit) (fun _ => true) 2 1 2
        (fun _ _ => (Except.error PyErr.timeout, ())) ()).2.2 = 2 ∧
    (retryRun (σ := Unit) (α := Unit) (fun _ => true) 2 1 2
        (fun _ _ => (Except.error PyErr.timeout, ())) ()).1 =
      Except.error PyErr.timeout := by
  have H := claim_C4_retry_bound (σ := Unit) (α := Unit) (fun _ => true) 2 1 2
    (fun _ _ => (Except.error PyErr.timeout, ())) () (by decide)
  have H2 := H.2 (fun j s => ⟨PyErr.timeout, rfl, rfl⟩)
  exact ⟨H.1, H2.1, H2.2.trans rfl⟩

/-- Claim C5 counterexample: status 201 lies outside (200, 404, 410) and
keepStatusCode is false, yet the attempt does not raise:
raise_for_status only raises for 4xx/5xx, so the 201 response is returned
as a completed response. -/
theorem claim_C5_counterexample :
    (dNoProxy.downloadAttempt "http://example.test/" [] none
        { refill := [], ridx := 0, transport := TransportResult.ok 201 }).1 =
      Except.ok { status_code := 201, proxies := none } ∧
    statusClassify 201 false = Except.ok () ∧
    ¬(201 = 200 ∨ 201 = 404 ∨ 201 = 410) :=
  ⟨rfl, rfl, by decide⟩

/-- Claim C5 (amended): 200, 404 and 410 never raise; another code with
keepStatusCode false raises the HTTP-status error exactly when it lies in
the 4xx/5xx range 400 ≤ code < 600 covered by raise_for_status, and is
otherwise returned as a completed response; with keepStatusCode true the
classification never raises, so the response keeps its status code. -/
theorem claim_C5_amended_status_policy :
    (∀ code : Nat, statusClassify code true = Except.ok ()) ∧
    (∀ code : Nat, statusClassify code false = Except.error (PyErr.httpError code) ↔
        ¬(code = 200 ∨ code = 404 ∨ code = 410) ∧ 400 ≤ code ∧ code < 600) ∧
    (∀ code : Nat,
        (dNoProxy.downloadAttempt "http://example.test/" [] none
            { refill := [], ridx := 0, transport := TransportResult.ok code }).1 =
          if ¬(code = 200 ∨ code = 404 ∨ code = 410) ∧ 400 ≤ code ∧ code < 600
          then Except.error (PyErr.httpError code)
          else Except.ok { status_code := code, proxies := none }) := by
  refine ⟨?_, ?_, ?_⟩
  · intro code
    unfold statusClassify
    split <;> simp
  · intro code
    unfold statusClassify raise_for_status
    by_cases h1 : code = 200 ∨ code = 404 ∨ code = 410
    · rw [if_neg (not_not_intro h1)]
      simp [h1]
    · rw [if_pos h1, if_pos (by decide : ¬(false = true))]
      by_cases h2 : 400 ≤ code ∧ code < 600
      · rw [if_pos h2]
        simp [h1, h2]
      · rw [if_neg h2]
        simp [h1, h2]
  · intro code
    by_cases h1 : code = 200 ∨ code = 404 ∨ code = 410
    · have hs : statusClassify code false = Except.ok () := by
        unfold statusClassify
        rw [if_neg (not_not_intro h1)]
      rw [if_neg (fun hx => hx.1 h1)]
      show (Downloader.attemptCore dNoProxy none (some none)
        { refill := [], ridx := 0, transport := TransportResult.ok code }).1 = _
      unfold Downloader.attemptCore
      dsimp only
      rw [hs]
      rfl
    · by_cases h2 : 400 ≤ code ∧ code < 600
      · have hs : statusClassify code false = Except.error (PyErr.httpError code) := by
          unfold statusClassify raise_for_status
          rw [if_pos h1, if_pos (by decide : ¬(false = true)), if_pos h2]
        rw [if_pos ⟨h1, h2⟩]
        show (Downloader.attemptCore dNoProxy none (some none)
          { refill := [], ridx := 0, transport := TransportResult.ok code }).1 = _
        unfold Downloader.attemptCore
        dsimp only
        rw [hs]
      · have hs : statusClassify code false = Except.ok () := by
          unfold statusClassify raise_for_status
          rw [if_pos h1, if_pos (by decide : ¬(false = true)), if_neg h2]
        rw [if_neg (fun hx => h2 hx.2)]
        show (Downloader.attemptCore dNoProxy none (some none)
          { refill := [], ridx := 0, transport := TransportResult.ok code }).1 = _
        unfold Downloader.attemptCore
        dsimp only
        rw [hs]
        rfl

/-- Claim C6: download never lets an exception escape - its result is never
an error value - and when every retried attempt fails, whatever the
failure kind, the caller receives the no-response value none. -/
theorem claim_C6_download_swallows (d : Downloader) (url : String)
    (ch : Option Dict) (oracles : Nat → AttemptOracle) :
    (∀ e, (d.download url ch oracles).1 ≠ Except.error e) ∧
    ((∀ (k : Nat) (s : Downloader × ProxySlot), ∃ e,
        (Downloader.downloadAttempt s.1 url (d.mergedHeaders ch) s.2 (oracles k)).1 =
          Except.error e) →
      (d.download url ch oracles).1 = Except.ok none) := by
  have hok : (d.download url ch oracles).1 = Except.ok none ∨
      ∃ r, (d.download url ch oracles).1 = Except.ok (some r) := by
    unfold Downloader.download
    dsimp only
    cases hres : (retryRun (fun e => e.isException) 2 1 2
        (fun k s => Downloader.downloadAttempt s.1 url (d.mergedHeaders ch) s.2 (oracles k))
        ({ d with headers := d.mergedHeaders ch }, (none : ProxySlot))).1 with
    | ok r => exact Or.inr ⟨r, rfl⟩
    | error e0 => exact Or.inl (downloadCatch_eq_none e0)
  constructor
  · intro e
    rcases hok with hn | ⟨r, hr⟩
    · rw [hn]
      simp
    · rw [hr]
      simp
  · intro hfail
    obtain ⟨e0, he0⟩ := retryLoop_all_fail_error (fun e => e.isException)
      (fun k s => Downloader.downloadAttempt s.1 url (d.mergedHeaders ch) s.2 (oracles k))
      hfail 2 1 2 0 ({ d with headers := d.mergedHeaders ch }, (none : ProxySlot)) none
    unfold Downloader.download retryRun
    dsimp only
    rw [he0]
    exact downloadCatch_eq_none e0

/-- Claim C6 witness: with proxy mode disabled and a transport that times
out on every attempt, download returns the no-response value. -/
theorem claim_C6_witness :
    (dNoProxy.download "http://example.test/" none
        (fun _ => { refill := [], ridx := 0, transport := TransportResult.timeoutExc })).1 =
      Except.ok none :=
  (claim_C6_download_swallows dNoProxy "http://example.test/" none
      (fun _ => { refill := [], ridx := 0, transport := TransportResult.timeoutExc })).2
    (fun k s => downloadAttempt_timeout_fails s.1 "http://example.test/"
      (dNoProxy.mergedHeaders none) s.2 [] 0)

/-- Claim C7: releasing a then b does stack b on top of a in the LIFO
store, but the next Acquire does not return b: it raises AttributeError at
the isvalid() call, having already popped b from the store. -/
theorem claim_C7_lifo_acquire_raises :
    ((mgr20.put_proxy itA).put_proxy itB).proxy_queue = [itB, itA] ∧
    (((mgr20.put_proxy itA).put_proxy itB).get_proxy [] 0).1 =
      Except.error PyErr.attributeError ∧
    ((((mgr20.put_proxy itA).put_proxy itB).get_proxy [] 0).2).proxy_queue = [itA] :=
  ⟨rfl, rfl, rfl⟩

/-- Claim C8 counterexample: a structured request carrying a data field and
no method does not dispatch POST.  With a url field (scenario C) the strip
loop raises RuntimeError before any dispatch; with only whitelisted fields
the selected method is GET, because default_method is computed from the
per-call options before the request's fields are merged. -/
theorem claim_C8_counterexample :
    dNoProxy.dictDispatch reqScenC ["headers"] = Except.error PyErr.runtimeError ∧
    dNoProxy.dictDispatch reqDataOnly ["headers"] =
      Except.ok ("GET", false, ["headers", "proxies", "stream", "timeout", "data"]) ∧
    reqDataOnly.method = none ∧ "data" ∈ reqDataOnly.keys ∧ ("GET" : String) ≠ "POST" :=
  ⟨rfl, rfl, rfl, by decide, by decide⟩

/-- Claim C8 (amended): when the dict-request normalization completes (all
merged keys whitelisted), the dispatched method is the request's explicit
method when present; with no explicit method it is POST exactly when the
caller's per-call options carry a data key - a data field inside the
structured request itself never switches the default to POST. -/
theorem claim_C8_amended_method (d : Downloader) (req : DictRequest)
    (kw0 : List String) (m : String) (keep : Bool) (ks : List String)
    (h : d.dictDispatch req kw0 = Except.ok (m, keep, ks)) :
    (∀ mm, req.method = some mm → m = mm) ∧
    (req.method = none → (m = "POST" ↔ "data" ∈ kw0)) := by
  unfold Downloader.dictDispatch at h
  dsimp only at h
  by_cases hall : ((keysUpdate (keysUpdate (if "proxies" ∈ kw0 then kw0 else kw0 ++ ["proxies"])
      ["stream", "timeout"]) req.keys).all fun k => decide (k ∈ requests_module_kwargs)) = true
  · rw [if_pos hall] at h
    rw [Except.ok.injEq, Prod.mk.injEq, Prod.mk.injEq] at h
    obtain ⟨hm, hkeep, hks⟩ := h
    constructor
    · intro mm hmm
      rw [← hm, hmm]
      rfl
    · intro hnone
      rw [← hm, hnone]
      show (if "data" ∈ keysUpdate (if "proxies" ∈ kw0 then kw0 else kw0 ++ ["proxies"])
          ["stream", "timeout"] then "POST" else "GET") = "POST" ↔ "data" ∈ kw0
      have hkw1 : "data" ∈ (if "proxies" ∈ kw0 then kw0 else kw0 ++ ["proxies"]) ↔
          "data" ∈ kw0 := by
        split
        · exact Iff.rfl
        · rw [List.mem_append, List.mem_singleton]
          constructor
          · rintro (hx | hx)
            · exact hx
            · exact absurd hx (by decide)
          · exact fun hx => Or.inl hx
      have hmem : ("data" ∈ keysUpdate (if "proxies" ∈ kw0 then kw0 else kw0 ++ ["proxies"])
          ["stream", "timeout"]) ↔ "data" ∈ kw0 := by
        show ("data" ∈ keysAdd (keysAdd
          (if "proxies" ∈ kw0 then kw0 else kw0 ++ ["proxies"]) "stream") "timeout") ↔ _
        rw [mem_keysAdd, mem_keysAdd, hkw1]
        constructor
        · rintro ((hx | hx) | hx)
          · exact hx
          · exact absurd hx (by decide)
          · exact absurd hx (by decide)
        · exact fun hx => Or.inl (Or.inl hx)
      by_cases hdata : "data" ∈ kw0
      · rw [if_pos (hmem.mpr hdata)]
        simp [hdata]
      · rw [if_neg (fun hx => hdata (hmem.mp hx))]
        constructor
        · intro hx
          exact absurd hx (by decide)
        · intro hx
          exact absurd hx hdata
  · rw [if_neg hall] at h
    exact absurd h (by simp)

/-- Claim C8 witness: the amended method rule on the data-only structured
request with caller options carrying no data key: the method is not POST,
matching the absence of data among the options. -/
theorem claim_C8_witness :
    ("GET" : String) = "POST" ↔ "data" ∈ (["headers"] : List String) :=
  (claim_C8_amended_method dNoProxy reqDataOnly ["headers"] "GET" false
    ["headers", "proxies", "stream", "timeout", "data"] rfl).2 rfl

/-- Claim C9 counterexample: on a pool with a non-empty LIFO store,
update_black_peoxies does not behave like add-then-Acquire: it returns a
raw candidate pair and leaves the store untouched, while the spec-modelled
add-then-Acquire consumes the store (and, on this code, raises
AttributeError there). -/
theorem claim_C9_counterexample :
    (mgrBL.update_black_peoxies "1.2.3.4:80" [] 0).1 = (some "http", some "h:80") ∧
    (mgrBL.update_black_peoxies "1.2.3.4:80" [] 0).2.proxy_queue = [itFresh] ∧
    (blacklistSpec mgrBL "1.2.3.4:80" [] 0).1 = Except.error PyErr.attributeError ∧
    (blacklistSpec mgrBL "1.2.3.4:80" [] 0).2.proxy_queue = [] :=
  ⟨rfl, rfl, rfl, rfl⟩

/-- Claim C9 (amended): for a non-empty endpoint, update_black_peoxies adds
the endpoint to the blacklist set and returns a replacement drawn from the
raw candidate list by random choice on the blacklist-updated state,
leaving the LIFO store untouched - it does not go through Acquire. -/
theorem claim_C9_amended_blacklist (m : ProxyManager) (host : String)
    (refill : List Cand) (ridx : Nat) (h : host ≠ "") :
    (m.update_black_peoxies host refill ridx).2.black_peoxies =
      setAdd m.black_peoxies host ∧
    host ∈ (m.update_black_peoxies host refill ridx).2.black_peoxies ∧
    (m.update_black_peoxies host refill ridx).2.proxy_queue = m.proxy_queue ∧
    m.update_black_peoxies host refill ridx =
      ({ m with black_peoxies := setAdd m.black_peoxies host }).random_choice_proxy
        refill ridx := by
  have hu : m.update_black_peoxies host refill ridx =
      ({ m with black_peoxies := setAdd m.black_peoxies host }).random_choice_proxy
        refill ridx := by
    unfold ProxyManager.update_black_peoxies
    rw [if_pos h]
  have hf := random_choice_fields
    { m with black_peoxies := setAdd m.black_peoxies host } refill ridx
  refine ⟨?_, ?_, ?_, hu⟩
  · rw [hu, hf.2.2]
  · rw [hu, hf.2.2]
    unfold setAdd
    by_cases hin : host ∈ m.black_peoxies
    · rw [if_pos hin]
      exact hin
    · rw [if_neg hin]
      exact List.mem_append.mpr (Or.inr (List.mem_singleton.mpr rfl))
  · rw [hu, hf.1]

/-- Claim C9 witness: the amended behavior at a concrete pool and endpoint. -/
theorem claim_C9_witness :
    (mgrBL.update_black_peoxies "9.9.9.9:80" [] 1).2.black_peoxies =
      setAdd mgrBL.black_peoxies "9.9.9.9:80" ∧
    "9.9.9.9:80" ∈ (mgrBL.update_black_peoxies "9.9.9.9:80" [] 1).2.black_peoxies ∧
    (mgrBL.update_black_peoxies "9.9.9.9:80" [] 1).2.proxy_queue = mgrBL.proxy_queue ∧
    mgrBL.update_black_peoxies "9.9.9.9:80" [] 1 =
      ({ mgrBL with black_peoxies := setAdd mgrBL.black_peoxies "9.9.9.9:80" }).random_choice_proxy
        [] 1 :=
  claim_C9_amended_blacklist mgrBL "9.9.9.9:80" [] 1 (by decide)

/-- Claim C10: a download call with per-call headers permanently rewrites
the instance's default headers to the previous defaults updated with the
caller's; a following call that passes no headers merges nothing new and
still carries (and sends, as its kwargs headers value mergedHeaders) the
earlier merge. -/
theorem claim_C10_header_mutation (d : Downloader) (url : String) (h : Dict)
    (o1 o2 : Nat → AttemptOracle) :
    (d.download url (some h) o1).2.headers = dictUpdate d.headers h ∧
    Downloader.mergedHeaders (d.download url (some h) o1).2 none = dictUpdate d.headers h ∧
    ((d.download url (some h) o1).2.download url none o2).2.headers =
      dictUpdate d.headers h := by
  have h1 : (d.download url (some h) o1).2.headers = dictUpdate d.headers h :=
    download_headers d url (some h) o1
  refine ⟨h1, ?_, ?_⟩
  · show dictUpdate (d.download url (some h) o1).2.headers [] = dictUpdate d.headers h
    rw [dictUpdate_nil]
    exact h1
  · rw [download_headers]
    show dictUpdate (d.download url (some h) o1).2.headers [] = dictUpdate d.headers h
    rw [dictUpdate_nil]
    exact h1

end Spider
